import Mathlib

/-!
Shallow embedding of the AI Completion Gateway of the
`one-reference-architecture` repository: the OpenAI-compatible chat
completion orchestrator (`rust-lib/src/ai.rs`), the MCP tool registry
(`rust-lib/src/mcp.rs`), the retrieval-augmented-generation service
(`rust-lib/src/rag.rs`) and the proxy process manager
(`src-tauri/src/ai_proxy.rs`).

Rust strings are modelled as Lean `String`; `str::len()` (UTF-8 byte
count) is modelled by `byteLen`.  Rust `HashMap` is modelled as an
association list with insert-replaces / remove-deletes semantics; its
unspecified value order is represented canonically by list order.
`f32` relevance scores are modelled as exact rationals.  Timestamps
(`chrono::Utc::now`) are an explicit `now : Nat` parameter.
-/

set_option maxRecDepth 65536

/-- Minimal JSON value model for `serde_json::Value` (schemas / metadata). -/
inductive Json where
  | null : Json
  | bool (b : Bool) : Json
  | num (n : Int) : Json
  | str (s : String) : Json
  | arr (items : List Json) : Json
  | obj (fields : List (String × Json)) : Json

/-- Model of Rust `str::len()`: the UTF-8 byte length of the string. -/
def byteLen (s : String) : Nat :=
  (s.data.map Char.utf8Size).sum

/-- Concatenation of a list of strings (used for deterministic formatting). -/
def strJoin : List String → String
  | [] => ""
  | s :: rest => s ++ strJoin rest

/-- Helper for Rust `str::contains` on char lists. -/
def listContainsSub (pat : List Char) : List Char → Bool
  | [] => pat.isEmpty
  | c :: rest => pat.isPrefixOf (c :: rest) || listContainsSub pat rest

/-- Model of Rust `str::contains(pat)`. -/
def strContains (s pat : String) : Bool :=
  listContainsSub pat.data s.data

/-- serde_json string escaping for one character. -/
def jsonEscapeChar (c : Char) : String :=
  if c = '"' then "\\\""
  else if c = '\\' then "\\\\"
  else if c = Char.ofNat 8 then "\\b"
  else if c = Char.ofNat 9 then "\\t"
  else if c = Char.ofNat 10 then "\\n"
  else if c = Char.ofNat 12 then "\\f"
  else if c = Char.ofNat 13 then "\\r"
  else if c.toNat < 32 then
    "\\u00" ++ String.singleton (Nat.digitChar (c.toNat / 16))
            ++ String.singleton (Nat.digitChar (c.toNat % 16))
  else String.singleton c

/-- serde_json serialization of a string (quotes plus escapes). -/
def jsonEncodeString (s : String) : String :=
  "\"" ++ strJoin (s.data.map jsonEscapeChar) ++ "\""

/-! ## Chat data model (`rust-lib/src/ai.rs`) -/

/-- `FunctionCall` of `ai.rs`: target name and serialized JSON arguments. -/
structure FunctionCall where
  name : String
  arguments : String
deriving DecidableEq, Repr

/-- `ToolCall` of `ai.rs`. -/
structure ToolCall where
  id : String
  type : String
  function : FunctionCall
deriving DecidableEq, Repr

/-- `ChatMessage` of `ai.rs`. -/
structure ChatMessage where
  role : String
  content : Option String
  tool_calls : Option (List ToolCall)
  tool_call_id : Option String
  name : Option String
deriving DecidableEq, Repr

/-- `FunctionDefinition` of `ai.rs` (an OpenAI-style tool schema). -/
structure FunctionDefinition where
  name : String
  description : String
  parameters : Json

/-- `Tool` of `ai.rs`. -/
structure Tool where
  type : String
  function : FunctionDefinition

/-- `FunctionChoice` of `ai.rs`. -/
structure FunctionChoice where
  name : String

/-- `ToolChoice` of `ai.rs` (untagged serde enum). -/
inductive ToolChoice where
  | auto (mode : String)
  | function (type : String) (function : FunctionChoice)

/-- `ChatCompletionRequest` of `ai.rs`. -/
structure ChatCompletionRequest where
  model : String
  messages : List ChatMessage
  temperature : Option Rat
  max_tokens : Option Nat
  stream : Option Bool
  tools : Option (List Tool)
  tool_choice : Option ToolChoice

/-- `ChatChoice` of `ai.rs`. -/
structure ChatChoice where
  index : Nat
  message : ChatMessage
  finish_reason : String
deriving DecidableEq, Repr

/-- `Usage` of `ai.rs`. -/
structure Usage where
  prompt_tokens : Nat
  completion_tokens : Nat
  total_tokens : Nat
deriving DecidableEq, Repr

/-- `ChatCompletionResponse` of `ai.rs`. -/
structure ChatCompletionResponse where
  id : String
  object : String
  created : Nat
  model : String
  choices : List ChatChoice
  usage : Usage
deriving DecidableEq, Repr

/-! ## MCP registry (`rust-lib/src/mcp.rs`) -/

/-- `McpServerStatus` of `mcp.rs`. -/
inductive McpServerStatus where
  | active
  | inactive
  | error (reason : String)

/-- `McpTool` of `mcp.rs`. -/
structure McpTool where
  name : String
  description : String
  schema : Json
  server : String

/-- `McpServer` of `mcp.rs`. -/
structure McpServer where
  name : String
  description : String
  version : String
  tools : List McpTool
  status : McpServerStatus

/-- Association-list model of `HashMap`: `insert` replaces the value under an
existing key in place, otherwise appends the new binding. -/
def alistInsert {α : Type} (l : List (String × α)) (k : String) (v : α) :
    List (String × α) :=
  if l.any (fun p => p.1 == k) then
    l.map (fun p => if p.1 == k then (k, v) else p)
  else
    l ++ [(k, v)]

/-- Association-list model of `HashMap::remove`: deletes the binding of `k`. -/
def alistRemove {α : Type} (l : List (String × α)) (k : String) :
    List (String × α) :=
  l.filter (fun p => !(p.1 == k))

/-- Association-list model of `HashMap::get`. -/
def alistLookup {α : Type} (l : List (String × α)) (k : String) : Option α :=
  (l.find? (fun p => p.1 == k)).map (fun p => p.2)

/-- `McpRegistry` of `mcp.rs`: group map plus flat `tool_name -> tool` index. -/
structure McpRegistry where
  servers : List (String × McpServer)
  tools : List (String × McpTool)

/-- `McpRegistry::new`. -/
def McpRegistry.new : McpRegistry := { servers := [], tools := [] }

/-- `McpRegistry::register_server`: indexes every tool of the group into the
flat tool index (last write wins on a name collision), then inserts or
replaces the group itself. -/
def McpRegistry.register_server (reg : McpRegistry) (server : McpServer) :
    McpRegistry :=
  { servers := alistInsert reg.servers server.name server
    tools := server.tools.foldl (fun ts t => alistInsert ts t.name t) reg.tools }

/-- Conversion of a registry tool entry to an OpenAI-style `Tool`. -/
def toTool (t : McpTool) : Tool :=
  { type := "function"
    function := { name := t.name, description := t.description,
                  parameters := t.schema } }

/-- `McpRegistry::get_available_tools`. -/
def McpRegistry.get_available_tools (reg : McpRegistry) : List Tool :=
  reg.tools.map (fun p => toTool p.2)

/-- `McpRegistry::unregister_server`: removes the group and every tool name it
carries from the flat index; no-op when the group is absent. -/
def McpRegistry.unregister_server (reg : McpRegistry) (server_name : String) :
    McpRegistry :=
  match alistLookup reg.servers server_name with
  | some server =>
      { servers := alistRemove reg.servers server_name
        tools := server.tools.foldl (fun ts t => alistRemove ts t.name) reg.tools }
  | none => reg

/-- The `read_file` tool registered by `initialize_default_mcp_servers`. -/
def read_file_tool : McpTool :=
  { name := "read_file"
    description := "Read contents of a file"
    server := "filesystem"
    schema := Json.obj
      [("type", Json.str "object"),
       ("properties", Json.obj
         [("path", Json.obj
           [("type", Json.str "string"),
            ("description", Json.str "Path to the file to read")])]),
       ("required", Json.arr [Json.str "path"])] }

/-- The `write_file` tool registered by `initialize_default_mcp_servers`. -/
def write_file_tool : McpTool :=
  { name := "write_file"
    description := "Write content to a file"
    server := "filesystem"
    schema := Json.obj
      [("type", Json.str "object"),
       ("properties", Json.obj
         [("path", Json.obj
           [("type", Json.str "string"),
            ("description", Json.str "Path to the file to write")]),
          ("content", Json.obj
           [("type", Json.str "string"),
            ("description", Json.str "Content to write to the file")])]),
       ("required", Json.arr [Json.str "path", Json.str "content"])] }

/-- The `search_web` tool registered by `initialize_default_mcp_servers`. -/
def search_web_tool : McpTool :=
  { name := "search_web"
    description := "Search the web for information"
    server := "web_search"
    schema := Json.obj
      [("type", Json.str "object"),
       ("properties", Json.obj
         [("query", Json.obj
           [("type", Json.str "string"),
            ("description", Json.str "Search query")]),
          ("max_results", Json.obj
           [("type", Json.str "integer"),
            ("description", Json.str "Maximum number of results to return"),
            ("default", Json.num 5)])]),
       ("required", Json.arr [Json.str "query"])] }

/-- The `filesystem` default MCP server. -/
def fs_server : McpServer :=
  { name := "filesystem"
    description := "File system operations"
    version := "1.0.0"
    tools := [read_file_tool, write_file_tool]
    status := McpServerStatus.active }

/-- The `web_search` default MCP server. -/
def web_server : McpServer :=
  { name := "web_search"
    description := "Web search capabilities"
    version := "1.0.0"
    tools := [search_web_tool]
    status := McpServerStatus.active }

/-- `initialize_default_mcp_servers` of `mcp.rs` (run on every request):
registers the two demonstration servers into the registry. -/
def init_default_mcp_servers (reg : McpRegistry) : McpRegistry :=
  (reg.register_server fs_server).register_server web_server

/-! ## RAG service (`rust-lib/src/rag.rs`) -/

/-- `Document` of `rag.rs`. -/
structure Document where
  id : String
  title : String
  content : String
  metadata : Json
  embedding : Option (List Rat)
  created_at : Nat

/-- `RagContext` of `rag.rs`. -/
structure RagContext where
  documents : List Document
  query : String
  relevance_scores : List Rat
  total_tokens : Nat

/-- `RagConfig` of `rag.rs`. -/
structure RagConfig where
  max_documents : Nat
  relevance_threshold : Rat
  max_context_tokens : Nat
  embedding_model : String

/-- `RagConfig::default`. -/
def RagConfig.default : RagConfig :=
  { max_documents := 5
    relevance_threshold := mkRat 7 10
    max_context_tokens := 4000
    embedding_model := "text-embedding-ada-002" }

/-- `RagService` of `rag.rs`. -/
structure RagService where
  config : RagConfig

/-- Metadata JSON helper: Rust `Option<&str>` serialized by serde_json. -/
def jsonOfOptStr : Option String → Json
  | none => Json.null
  | some s => Json.str s

/-- The `RagContext` that the mock `retrieve_context` builds for a query:
two documents whose content embeds the query, fixed relevance scores
`[0.85, 0.78]`, and `total_tokens` summing `content.len() / 4`. -/
def mockRagContext (query : String) (user_id : Option String) (now : Nat) :
    RagContext :=
  let doc1 : Document :=
    { id := "doc_1"
      title := "Architecture Overview"
      content := "This document contains relevant information about " ++ query
        ++ ". The ONE reference architecture uses React, Rust, and Tauri for cross-platform development."
      metadata := Json.obj
        [("source", Json.str "user_documents"),
         ("type", Json.str "architecture_doc"),
         ("user_id", jsonOfOptStr user_id)]
      embedding := some [mkRat 1 10, mkRat 2 10, mkRat 3 10]
      created_at := now }
  let doc2 : Document :=
    { id := "doc_2"
      title := "Implementation Details"
      content := "Implementation details related to " ++ query
        ++ ". The shared Rust handlers provide consistent API responses across web and desktop platforms."
      metadata := Json.obj
        [("source", Json.str "user_documents"),
         ("type", Json.str "implementation_doc"),
         ("user_id", jsonOfOptStr user_id)]
      embedding := some [mkRat 2 10, mkRat 3 10, mkRat 4 10]
      created_at := now }
  let mock_documents := [doc1, doc2]
  { documents := mock_documents
    query := query
    relevance_scores := [mkRat 85 100, mkRat 78 100]
    total_tokens := (mock_documents.map (fun d => byteLen d.content / 4)).sum }

/-- `RagService::retrieve_context` (the mock always succeeds). -/
def RagService.retrieve_context (_svc : RagService) (query : String)
    (user_id : Option String) (now : Nat) : Except String RagContext :=
  Except.ok (mockRagContext query user_id now)

/-- Rendering of an `f32` with Rust `{:.2}` formatting for a nonnegative
rational score: rounds to the nearest hundredth (the integer
`(200 num + den) / (2 den)`, the floor of `100 r + 1/2`) and prints two
decimal places. -/
def formatRelevance (r : Rat) : String :=
  let hundredths := ((200 * r.num + (r.den : Int)) / (2 * (r.den : Int))).toNat
  Nat.repr (hundredths / 100) ++ "."
    ++ (if hundredths % 100 < 10 then "0" else "")
    ++ Nat.repr (hundredths % 100)

/-- One numbered document section of `format_context_for_llm`. -/
def docSection (i : Nat) (doc : Document) (rel : Rat) : String :=
  "## Document " ++ Nat.repr (i + 1) ++ ": " ++ doc.title
    ++ " (Relevance: " ++ formatRelevance rel ++ ")\n" ++ doc.content ++ "\n\n"

/-- `RagService::format_context_for_llm`. -/
def format_context_for_llm (context : RagContext) : String :=
  "# Relevant Context Documents\n\n" ++ "Query: " ++ context.query ++ "\n\n"
    ++ strJoin (context.documents.enum.map
         (fun p => docSection p.1 p.2 (context.relevance_scores.getD p.1 0)))
    ++ "Use the above context to provide more accurate and relevant responses.\n"

/-- The context message that `enhance_messages_with_context` injects. -/
def contextMessage (context : RagContext) : ChatMessage :=
  { role := "system"
    content := some (format_context_for_llm context)
    tool_calls := none
    tool_call_id := none
    name := some "rag_context" }

/-- `RagService::enhance_messages_with_context`: no-op on an empty document
set, otherwise inserts the context message at the index of the first
`user`-role message (at the end when there is none). -/
def enhance_messages_with_context (messages : List ChatMessage)
    (context : RagContext) : List ChatMessage :=
  if context.documents.isEmpty then messages
  else
    let insert_position := messages.findIdx (fun m => m.role == "user")
    messages.take insert_position
      ++ contextMessage context :: messages.drop insert_position

/-! ## Completion orchestrator (`rust-lib/src/ai.rs`) -/

/-- `calculate_tokens` contribution of a single message:
`content.len() / 4` plus `10` per tool call. -/
def messageTokens (msg : ChatMessage) : Nat :=
  (match msg.content with
   | some c => byteLen c / 4
   | none => 0)
  + (match msg.tool_calls with
     | some calls => calls.length * 10
     | none => 0)

/-- `calculate_tokens` of `ai.rs`. -/
def calculate_tokens (messages : List ChatMessage) : Nat :=
  (messages.map messageTokens).sum

/-- The user query the handler extracts: content of the last `user`-role
message, or `""`. -/
def userQueryOf (messages : List ChatMessage) : String :=
  (((messages.filter (fun m => m.role == "user")).getLast?).bind
    ChatMessage.content).getD ""

/-- The message list after the handler's RAG-enhancement stage: unchanged when
the user query is empty or retrieval fails, otherwise enhanced with the
retrieved context. -/
def enhancedMessages (retrieve : String → Except String RagContext)
    (messages : List ChatMessage) : List ChatMessage :=
  let user_query := userQueryOf messages
  if user_query == "" then messages
  else
    match retrieve user_query with
    | Except.ok ctx => enhance_messages_with_context messages ctx
    | Except.error _ => messages

/-- Serialization of `json!({"query": q, "max_results": 3})` (serde_json
orders map keys alphabetically). -/
def searchArguments (q : String) : String :=
  "\x7b\"max_results\":3,\"query\":" ++ jsonEncodeString q ++ "\x7d"

/-- Serialization of `json!({"path": "/example/file.txt"})`. -/
def readFileArguments : String :=
  "\x7b\"path\":\"/example/file.txt\"\x7d"

/-- `chat_completions_handler` of `ai.rs`, with the wall clock (`now`), the
retrieval collaborator, and the pre-existing registry state as explicit
parameters; the error type models `StatusCode`. -/
def chatCompletionsCore (now : Nat)
    (retrieve : String → Except String RagContext)
    (reg0 : McpRegistry) (request : ChatCompletionRequest) :
    Except Nat ChatCompletionResponse :=
  let reg := init_default_mcp_servers reg0
  let user_query := userQueryOf request.messages
  let messages := enhancedMessages retrieve request.messages
  let has_tool_call_response := messages.any (fun m => m.role == "tool")
  let available_tools : Option (List Tool) :=
    match request.tools with
    | none =>
        let mcp_tools := reg.get_available_tools
        if mcp_tools.isEmpty then none else some mcp_tools
    | some ts => some ts
  let should_call_tool := available_tools.isSome && !has_tool_call_response
    && (strContains user_query "search" || strContains user_query "file"
        || strContains user_query "read")
  if should_call_tool && available_tools.isSome then
    let tool_calls : List ToolCall :=
      [{ id := "call_" ++ Nat.repr now
         type := "function"
         function :=
           { name := if strContains user_query "search" then "search_web"
                     else "read_file"
             arguments := if strContains user_query "search" then
                 searchArguments user_query
               else readFileArguments } }]
    Except.ok
      { id := "chatcmpl-" ++ Nat.repr now
        object := "chat.completion"
        created := now
        model := request.model
        choices :=
          [{ index := 0
             message :=
               { role := "assistant", content := none,
                 tool_calls := some tool_calls, tool_call_id := none,
                 name := none }
             finish_reason := "tool_calls" }]
        usage :=
          { prompt_tokens := calculate_tokens messages
            completion_tokens := 25
            total_tokens := calculate_tokens messages + 25 } }
  else
    let context_info :=
      if messages.any (fun m => m.name == some "rag_context") then
        " (Enhanced with RAG context from your documents)"
      else ""
    let tool_info :=
      match available_tools with
      | some ts => " " ++ Nat.repr ts.length ++ " MCP tools are available."
      | none => ""
    Except.ok
      { id := "chatcmpl-" ++ Nat.repr now
        object := "chat.completion"
        created := now
        model := request.model
        choices :=
          [{ index := 0
             message :=
               { role := "assistant"
                 content := some
                   ("This is a response from the shared Rust handler with full tool calling and RAG support. You sent "
                     ++ Nat.repr messages.length ++ " messages to model \x27"
                     ++ request.model ++ "\x27." ++ context_info ++ tool_info
                     ++ " This response is compatible with assistant-ui and ag-ui.")
                 tool_calls := none, tool_call_id := none, name := none }
             finish_reason := "stop" }]
        usage :=
          { prompt_tokens := calculate_tokens messages
            completion_tokens := 75
            total_tokens := calculate_tokens messages + 75 } }

/-- `chat_completions_handler` with the source's own collaborators: the mock
retrieval service with the default configuration. -/
def chat_completions_handler (now : Nat) (reg0 : McpRegistry)
    (request : ChatCompletionRequest) : Except Nat ChatCompletionResponse :=
  chatCompletionsCore now
    (fun q => RagService.retrieve_context { config := RagConfig.default } q none now)
    reg0 request

/-- The `prompt_tokens` of a successful handler result. -/
def promptTokensOf (r : Except Nat ChatCompletionResponse) : Option Nat :=
  r.toOption.map (fun resp => resp.usage.prompt_tokens)

/-! ## Proxy process manager (`src-tauri/src/ai_proxy.rs`) -/

/-- Outcome of one health-check HTTP attempt: a connection-level error, or a
response that is or is not a success status. -/
inductive HealthOutcome where
  | connErr
  | response (success : Bool)
deriving DecidableEq, Repr

/-- The retry loop of `verify_server_health`: for each attempt, a success
response returns immediately; a non-success response retries with no pause;
a connection error sleeps 200 ms and retries.  Returns
`(healthy, attempts made, milliseconds slept)`. -/
def runHealthChecks (outcomes : Nat → HealthOutcome) :
    List Nat → Nat → Nat → Bool × Nat × Nat
  | [], attempts, sleepMs => (false, attempts, sleepMs)
  | a :: rest, attempts, sleepMs =>
    match outcomes a with
    | HealthOutcome.response true => (true, attempts + 1, sleepMs)
    | HealthOutcome.response false => runHealthChecks outcomes rest (attempts + 1) sleepMs
    | HealthOutcome.connErr => runHealthChecks outcomes rest (attempts + 1) (sleepMs + 200)

/-- `verify_server_health` of `ai_proxy.rs`: attempts `1..=5`. -/
def verify_server_health (outcomes : Nat → HealthOutcome) : Bool × Nat × Nat :=
  runHealthChecks outcomes [1, 2, 3, 4, 5] 0 0

/-- `AIProxyServer` state. -/
structure AIProxyServer where
  port : Nat
  is_running : Bool

/-- `AIProxyServer::new`. -/
def AIProxyServer.new : AIProxyServer := { port := 8080, is_running := false }

/-- `AIProxyServer::start`, from the settle sleep onward: sleeps 500 ms, runs
health verification, and either marks the server running and returns the
port, or returns an error leaving the state untouched.  The third component
is the total milliseconds slept. -/
def AIProxyServer.start (srv : AIProxyServer)
    (outcomes : Nat → HealthOutcome) :
    Except String Nat × AIProxyServer × Nat :=
  let settleMs := 500
  let r := verify_server_health outcomes
  if r.1 then
    (Except.ok srv.port, { srv with is_running := true }, settleMs + r.2.2)
  else
    (Except.error "Failed to start AI Proxy server", srv, settleMs + r.2.2)

/-- Number of connection-error attempts among the five health checks. -/
def errCount (outcomes : Nat → HealthOutcome) : Nat :=
  (([1, 2, 3, 4, 5]).filter (fun a => outcomes a == HealthOutcome.connErr)).length

/-! ## Helper lemmas -/

theorem byteLen_append (s t : String) : byteLen (s ++ t) = byteLen s + byteLen t := by
  simp [byteLen, String.data_append, List.map_append, List.sum_append]

theorem strJoin_cons (s : String) (rest : List String) :
    strJoin (s :: rest) = s ++ strJoin rest := rfl

theorem calculate_tokens_insert (l : List ChatMessage) (p : Nat) (m : ChatMessage) :
    calculate_tokens (l.take p ++ m :: l.drop p)
      = calculate_tokens l + messageTokens m := by
  unfold calculate_tokens
  rw [List.map_append, List.sum_append, List.map_cons, List.sum_cons]
  conv_rhs => rw [← List.take_append_drop p l, List.map_append, List.sum_append]
  omega

theorem mem_enhance (m : ChatMessage) (msgs : List ChatMessage) (ctx : RagContext)
    (h : m ∈ msgs) : m ∈ enhance_messages_with_context msgs ctx := by
  unfold enhance_messages_with_context
  split
  · exact h
  · have hsplit : m ∈ msgs.take (msgs.findIdx fun x => x.role == "user")
        ++ msgs.drop (msgs.findIdx fun x => x.role == "user") := by
      rw [List.take_append_drop]; exact h
    rcases List.mem_append.mp hsplit with h1 | h2
    · exact List.mem_append.mpr (Or.inl h1)
    · exact List.mem_append.mpr (Or.inr (List.mem_cons_of_mem _ h2))

theorem mem_enhancedMessages (retrieve : String → Except String RagContext)
    (m : ChatMessage) (msgs : List ChatMessage) (h : m ∈ msgs) :
    m ∈ enhancedMessages retrieve msgs := by
  unfold enhancedMessages
  dsimp only
  split
  · exact h
  · split
    · exact mem_enhance _ _ _ h
    · exact h

theorem promptTokens_eq (now : Nat) (retrieve : String → Except String RagContext)
    (reg0 : McpRegistry) (req : ChatCompletionRequest) :
    promptTokensOf (chatCompletionsCore now retrieve reg0 req)
      = some (calculate_tokens (enhancedMessages retrieve req.messages)) := by
  unfold chatCompletionsCore
  dsimp only
  split <;> split <;> rfl

theorem enhancedMessages_error (e : String) (msgs : List ChatMessage) :
    enhancedMessages (fun _ => Except.error e) msgs = msgs := by
  unfold enhancedMessages
  dsimp only
  split <;> rfl

theorem enhancedMessages_emptyCtx (msgs : List ChatMessage) :
    enhancedMessages (fun _ => Except.ok ⟨[], "", [], 0⟩) msgs = msgs := by
  unfold enhancedMessages
  dsimp only
  split <;> rfl

theorem strBeqComm (a b : String) : (a == b) = (b == a) := by
  cases hab : a == b with
  | true => exact ((beq_iff_eq (a := b) (b := a)).mpr (eq_of_beq hab).symm).symm
  | false =>
    cases hba : b == a with
    | true => rw [eq_of_beq hba] at hab; simp at hab
    | false => rfl

theorem find?_head_true {α : Type} (P : α → Bool) (a : α)
    (l : List α) (h : P a = true) : (a :: l).find? P = some a := by
  rw [List.find?_cons, h]

theorem find?_head_false {α : Type} (P : α → Bool) (a : α)
    (l : List α) (h : P a = false) : (a :: l).find? P = l.find? P := by
  rw [List.find?_cons, h]

theorem filter_head_true {α : Type} (P : α → Bool) (a : α)
    (l : List α) (h : P a = true) :
    (a :: l).filter P = a :: l.filter P := by
  rw [List.filter_cons, h]
  exact if_pos rfl

theorem filter_head_false {α : Type} (P : α → Bool) (a : α)
    (l : List α) (h : P a = false) : (a :: l).filter P = l.filter P := by
  rw [List.filter_cons, h]
  exact if_neg Bool.false_ne_true

theorem find?_keyRepl {α : Type} (l : List (String × α)) (k' k : String) (v : α)
    (h : (k' == k) = false) :
    (l.map (fun p => if p.1 == k' then (k', v) else p)).find? (fun p => p.1 == k)
      = l.find? (fun p => p.1 == k) := by
  induction l with
  | nil => rfl
  | cons p l ih =>
    rw [List.map_cons]
    cases hp : (p.1 == k') with
    | true =>
      have hp2 : (p.1 == k) = false := by rw [eq_of_beq hp]; exact h
      rw [if_pos rfl, find?_head_false (fun p : String × α => p.1 == k) _ _ h,
          find?_head_false (fun p : String × α => p.1 == k) _ _ hp2, ih]
    | false =>
      rw [if_neg Bool.false_ne_true]
      cases hq : (p.1 == k) with
      | true =>
        rw [find?_head_true (fun p : String × α => p.1 == k) _ _ hq,
            find?_head_true (fun p : String × α => p.1 == k) _ _ hq]
      | false =>
        rw [find?_head_false (fun p : String × α => p.1 == k) _ _ hq,
            find?_head_false (fun p : String × α => p.1 == k) _ _ hq, ih]

theorem find?_appendSingle {α : Type} (l : List (String × α)) (k' k : String)
    (v : α) (h : (k' == k) = false) :
    (l ++ [(k', v)]).find? (fun p => p.1 == k) = l.find? (fun p => p.1 == k) := by
  induction l with
  | nil =>
    rw [List.nil_append, find?_head_false (fun p : String × α => p.1 == k) _ _ h]
  | cons p l ih =>
    rw [List.cons_append]
    cases hq : (p.1 == k) with
    | true =>
      rw [find?_head_true (fun p : String × α => p.1 == k) _ _ hq,
          find?_head_true (fun p : String × α => p.1 == k) _ _ hq]
    | false =>
      rw [find?_head_false (fun p : String × α => p.1 == k) _ _ hq,
          find?_head_false (fun p : String × α => p.1 == k) _ _ hq, ih]

theorem alistLookup_insert_ne {α : Type} (l : List (String × α)) (k' k : String)
    (v : α) (h : (k' == k) = false) :
    alistLookup (alistInsert l k' v) k = alistLookup l k := by
  unfold alistInsert alistLookup
  split
  · rw [find?_keyRepl l k' k v h]
  · rw [find?_appendSingle l k' k v h]

theorem find?_keyRepl_self {α : Type} (l : List (String × α)) (k : String) (v : α)
    (h : l.any (fun p => p.1 == k) = true) :
    (l.map (fun p => if p.1 == k then (k, v) else p)).find? (fun p => p.1 == k)
      = some (k, v) := by
  induction l with
  | nil => simp at h
  | cons p l ih =>
    rw [List.map_cons]
    cases hp : (p.1 == k) with
    | true =>
      rw [if_pos rfl]
      exact find?_head_true (fun p : String × α => p.1 == k) _ _ (beq_self_eq_true k)
    | false =>
      have h2 : l.any (fun p => p.1 == k) = true := by
        rw [List.any_cons, hp, Bool.false_or] at h; exact h
      rw [if_neg Bool.false_ne_true,
          find?_head_false (fun p : String × α => p.1 == k) _ _ hp, ih h2]

theorem find?_appendSingle_self {α : Type} (l : List (String × α)) (k : String)
    (v : α) (h : l.any (fun p => p.1 == k) = false) :
    (l ++ [(k, v)]).find? (fun p => p.1 == k) = some (k, v) := by
  induction l with
  | nil =>
    rw [List.nil_append]
    exact find?_head_true (fun p : String × α => p.1 == k) _ _ (beq_self_eq_true k)
  | cons p l ih =>
    have hp : (p.1 == k) = false := by
      cases hps : (p.1 == k) with
      | false => rfl
      | true => rw [List.any_cons, hps] at h; simp at h
    have h2 : l.any (fun p => p.1 == k) = false := by
      rw [List.any_cons, hp, Bool.false_or] at h; exact h
    rw [List.cons_append, find?_head_false (fun p : String × α => p.1 == k) _ _ hp, ih h2]

theorem alistLookup_insert_self {α : Type} (l : List (String × α)) (k : String)
    (v : α) : alistLookup (alistInsert l k v) k = some v := by
  unfold alistInsert alistLookup
  split
  · rename_i h; rw [find?_keyRepl_self l k v h]; rfl
  · rename_i h
    rw [find?_appendSingle_self l k v (Bool.eq_false_iff.mpr h)]
    rfl

theorem alistLookup_foldl_insert_ne (ts : List McpTool)
    (l : List (String × McpTool)) (k : String)
    (h : ∀ t ∈ ts, (t.name == k) = false) :
    alistLookup (ts.foldl (fun acc t => alistInsert acc t.name t) l) k
      = alistLookup l k := by
  induction ts generalizing l with
  | nil => rfl
  | cons t ts ih =>
    rw [List.foldl_cons,
        ih _ (fun u hu => h u (List.mem_cons_of_mem _ hu)),
        alistLookup_insert_ne _ _ _ _ (h t (List.mem_cons_self _ _))]

theorem filter_keyRepl {α : Type} (P : String × α → Bool)
    (l : List (String × α)) (k : String) (v : α)
    (hP : ∀ p : String × α, p.1 = k → P p = false) :
    (l.map (fun p => if p.1 == k then (k, v) else p)).filter P = l.filter P := by
  induction l with
  | nil => rfl
  | cons p l ih =>
    rw [List.map_cons]
    cases hp : (p.1 == k) with
    | true =>
      rw [if_pos rfl, filter_head_false P _ _ (hP _ rfl),
          filter_head_false P _ _ (hP _ (eq_of_beq hp)), ih]
    | false =>
      rw [if_neg Bool.false_ne_true]
      cases hq : P p with
      | true => rw [filter_head_true P _ _ hq, filter_head_true P _ _ hq, ih]
      | false => rw [filter_head_false P _ _ hq, filter_head_false P _ _ hq, ih]


theorem filter_appendSingle {α : Type} (P : String × α → Bool)
    (l : List (String × α)) (k : String) (v : α) (hkv : P (k, v) = false) :
    (l ++ [(k, v)]).filter P = l.filter P := by
  rw [List.filter_append]
  simp [List.filter_cons, hkv]

theorem filter_alistInsert {α : Type} (P : String × α → Bool)
    (l : List (String × α)) (k : String) (v : α)
    (hP : ∀ p : String × α, p.1 = k → P p = false) :
    (alistInsert l k v).filter P = l.filter P := by
  unfold alistInsert
  split
  · exact filter_keyRepl P l k v hP
  · exact filter_appendSingle P l k v (hP _ rfl)

theorem filter_foldl_insert (ts : List McpTool) (l : List (String × McpTool))
    (P : String × McpTool → Bool)
    (hP : ∀ t ∈ ts, ∀ p : String × McpTool, p.1 = t.name → P p = false) :
    (ts.foldl (fun acc t => alistInsert acc t.name t) l).filter P
      = l.filter P := by
  induction ts generalizing l with
  | nil => rfl
  | cons t ts ih =>
    rw [List.foldl_cons,
        ih _ (fun u hu => hP u (List.mem_cons_of_mem _ hu)),
        filter_alistInsert P l t.name t (hP t (List.mem_cons_self _ _))]

theorem foldl_remove_eq_filter (ts : List McpTool)
    (l : List (String × McpTool)) :
    ts.foldl (fun acc t => alistRemove acc t.name) l
      = l.filter (fun p => !(ts.any (fun t => t.name == p.1))) := by
  induction ts generalizing l with
  | nil =>
    simp only [List.foldl_nil, List.any_nil, Bool.not_false]
    exact (List.filter_eq_self.mpr (fun a _ => rfl)).symm
  | cons t ts ih =>
    rw [List.foldl_cons, ih]
    unfold alistRemove
    rw [List.filter_filter]
    apply List.filter_congr
    intro p _
    rw [List.any_cons, Bool.not_or, strBeqComm t.name p.1, Bool.and_comm]

theorem unregister_register_tools (reg : McpRegistry) (G : McpServer)
    (hfresh : ∀ t ∈ G.tools, alistLookup reg.tools t.name = none) :
    ((reg.register_server G).unregister_server G.name).tools = reg.tools := by
  unfold McpRegistry.register_server McpRegistry.unregister_server
  dsimp only
  rw [alistLookup_insert_self]
  dsimp only
  rw [foldl_remove_eq_filter,
      filter_foldl_insert G.tools reg.tools _
        (fun t ht p hpk => by
          have hany : (G.tools.any (fun u => u.name == p.1)) = true :=
            List.any_eq_true.mpr ⟨t, ht, by rw [hpk]; exact beq_self_eq_true _⟩
          rw [hany]; rfl)]
  apply List.filter_eq_self.mpr
  intro p hp
  have hnone : ∀ t ∈ G.tools, (p.1 == t.name) = false := by
    intro t ht
    have hfind : reg.tools.find? (fun q => q.1 == t.name) = none := by
      have := hfresh t ht
      unfold alistLookup at this
      exact Option.map_eq_none'.mp this
    have := List.find?_eq_none.mp hfind p hp
    exact Bool.eq_false_iff.mpr this
  have hany : (G.tools.any (fun u => u.name == p.1)) = false :=
    List.any_eq_false.mpr (fun t ht => by
      rw [strBeqComm t.name p.1, hnone t ht]; exact Bool.false_ne_true)
  rw [hany]
  rfl

theorem runHealthChecks_no_success (outcomes : Nat → HealthOutcome)
    (as : List Nat) (att acc : Nat)
    (h : ∀ a ∈ as, outcomes a ≠ HealthOutcome.response true) :
    runHealthChecks outcomes as att acc
      = (false, att + as.length,
         acc + 200 * (as.filter (fun a => outcomes a == HealthOutcome.connErr)).length) := by
  induction as generalizing att acc with
  | nil => simp [runHealthChecks]
  | cons a rest ih =>
    have hrest : ∀ b ∈ rest, outcomes b ≠ HealthOutcome.response true :=
      fun b hb => h b (List.mem_cons_of_mem _ hb)
    cases ho : outcomes a with
    | connErr =>
      rw [runHealthChecks, ho]
      dsimp only
      rw [ih _ _ hrest]
      have hf : ((a :: rest).filter
          (fun b => outcomes b == HealthOutcome.connErr)).length
            = (rest.filter (fun b => outcomes b == HealthOutcome.connErr)).length + 1 := by
        rw [List.filter_cons, ho]
        simp
      rw [hf, List.length_cons]
      have h1 : att + (rest.length + 1) = att + 1 + rest.length := by omega
      have h2 : acc + 200 * ((rest.filter
            (fun b => outcomes b == HealthOutcome.connErr)).length + 1)
          = acc + 200 + 200 * (rest.filter
            (fun b => outcomes b == HealthOutcome.connErr)).length := by omega
      rw [h1, h2]
    | response b =>
      cases b with
      | true => exact absurd ho (h a (List.mem_cons_self _ _))
      | false =>
        rw [runHealthChecks, ho]
        dsimp only
        rw [ih _ _ hrest]
        have hf : ((a :: rest).filter
            (fun b => outcomes b == HealthOutcome.connErr)).length
              = (rest.filter (fun b => outcomes b == HealthOutcome.connErr)).length := by
          rw [List.filter_cons, ho]
          simp
        rw [hf, List.length_cons]
        have h1 : att + (rest.length + 1) = att + 1 + rest.length := by omega
        rw [h1]

/-! ## Claim theorems -/

/-- The request of claim C1: model `gpt-4`, one user message asking to
search, no caller-supplied tools. -/
def c1Request : ChatCompletionRequest :=
  { model := "gpt-4"
    messages := [{ role := "user"
                   content := some "search for rust async patterns"
                   tool_calls := none, tool_call_id := none, name := none }]
    temperature := none
    max_tokens := none
    stream := none
    tools := none
    tool_choice := none }

/-- C1: for the request `{model:"gpt-4", messages:[user "search for rust
async patterns"]}` with no caller-supplied tools and the registry holding
the default groups, the handler returns one choice whose finish reason is
`tool_calls` (the wire form of the spec's `toolCalls`), whose assistant
message carries exactly one tool call targeting `search_web`, and whose
arguments string contains the key `query` with the value
`"search for rust async patterns"`; the registry indeed contains both
`search_web` and `read_file`. -/
theorem c1_search_routes_to_search_web :
    ((chat_completions_handler 0 McpRegistry.new c1Request).toOption.map
       (fun resp => resp.choices.map
         (fun ch => (ch.finish_reason,
           ch.message.tool_calls.map
             (fun calls => calls.map (fun c => c.function.name))))))
      = some [("tool_calls", some ["search_web"])] ∧
    (∃ pre post,
      ((chat_completions_handler 0 McpRegistry.new c1Request).toOption.bind
        (fun resp => (resp.choices.head?.bind
          (fun ch => ch.message.tool_calls.bind List.head?)).map
            (fun c => c.function.arguments)))
        = some (pre ++ "\"query\":\"search for rust async patterns\"" ++ post)) ∧
    (alistLookup (init_default_mcp_servers McpRegistry.new).tools
        "search_web").isSome = true ∧
    (alistLookup (init_default_mcp_servers McpRegistry.new).tools
        "read_file").isSome = true := by
  refine ⟨by decide, ⟨"\x7b\"max_results\":3,", "\x7d", by decide⟩,
    by decide, by decide⟩

/-- C2: for every request whose message list contains a `tool`-role message,
the handler's response has a single choice whose message carries no tool
calls and whose finish reason is `stop` (in particular not `tool_calls`). -/
theorem c2_tool_result_suppresses_tool_calls (now : Nat)
    (retrieve : String → Except String RagContext) (reg0 : McpRegistry)
    (req : ChatCompletionRequest) (h : ∃ m ∈ req.messages, m.role = "tool") :
    ((chatCompletionsCore now retrieve reg0 req).toOption.map
       (fun resp => resp.choices.map
         (fun ch => (ch.finish_reason, ch.message.tool_calls))))
      = some [("stop", none)] := by
  obtain ⟨m, hm, hrole⟩ := h
  have hany : (enhancedMessages retrieve req.messages).any
      (fun x => x.role == "tool") = true :=
    List.any_eq_true.mpr ⟨m, mem_enhancedMessages retrieve m req.messages hm,
      by rw [hrole]; exact beq_self_eq_true _⟩
  unfold chatCompletionsCore
  dsimp only
  rw [hany]
  simp only [Bool.not_true, Bool.and_false, Bool.false_and]
  rw [if_neg Bool.false_ne_true]
  rfl

/-- Concrete one-tool-message request for the C2 witness. -/
def c2Request : ChatCompletionRequest :=
  { model := "gpt-4"
    messages := [{ role := "tool", content := some "tool result"
                   tool_calls := none, tool_call_id := some "call_1"
                   name := some "search_web" }]
    temperature := none
    max_tokens := none
    stream := none
    tools := none
    tool_choice := none }

/-- Witness for C2 at a concrete tool-result request. -/
theorem c2_tool_result_suppresses_tool_calls_witness :
    (∃ m ∈ c2Request.messages, m.role = "tool") ∧
    ((chatCompletionsCore 0
        (fun q => RagService.retrieve_context { config := RagConfig.default } q none 0)
        McpRegistry.new c2Request).toOption.map
       (fun resp => resp.choices.map
         (fun ch => (ch.finish_reason, ch.message.tool_calls))))
      = some [("stop", none)] :=
  have hx : ∃ m ∈ c2Request.messages, m.role = "tool" :=
    ⟨{ role := "tool", content := some "tool result"
       tool_calls := none, tool_call_id := some "call_1"
       name := some "search_web" },
     List.mem_cons_self _ _, rfl⟩
  ⟨hx, c2_tool_result_suppresses_tool_calls 0
    (fun q => RagService.retrieve_context { config := RagConfig.default } q none 0)
    McpRegistry.new c2Request hx⟩

/-- Tool named `t` contributed by group `A` (C3 counterexample). -/
def c3ToolA : McpTool :=
  { name := "t", description := "from A", schema := Json.null, server := "A" }

/-- Tool named `t` contributed by group `G`, colliding with `c3ToolA`. -/
def c3ToolG : McpTool :=
  { name := "t", description := "from G", schema := Json.null, server := "G" }

/-- Registry that already holds group `A` with tool `t`. -/
def c3RegA : McpRegistry :=
  McpRegistry.new.register_server
    { name := "A", description := "group A", version := "1.0.0"
      tools := [c3ToolA], status := McpServerStatus.active }

/-- Group `G` whose tool name collides with the one group `A` contributed. -/
def c3GroupG : McpServer :=
  { name := "G", description := "group G", version := "1.0.0"
    tools := [c3ToolG], status := McpServerStatus.active }

/-- C3 counterexample: when the new group's tool name collides with a tool
contributed by another registered group, `register_server` followed by
`unregister_server` does NOT restore `get_available_tools`: unregistering
removes the colliding name entirely, dropping the other group's tool. -/
theorem c3_counterexample :
    ((c3RegA.register_server c3GroupG).unregister_server
        c3GroupG.name).get_available_tools
      ≠ c3RegA.get_available_tools := by
  intro hcontra
  have h0 : ((c3RegA.register_server c3GroupG).unregister_server
      c3GroupG.name).get_available_tools.length = 0 := rfl
  have h1 : c3RegA.get_available_tools.length = 1 := rfl
  rw [hcontra, h1] at h0
  exact Nat.one_ne_zero h0

/-- C3 (amended): if none of `G`'s tool names is already present in the flat
tool index, `register_server G` followed by `unregister_server G.name`
leaves `get_available_tools` exactly as before. -/
theorem c3_round_trip_fresh (reg : McpRegistry) (G : McpServer)
    (hfresh : ∀ t ∈ G.tools, alistLookup reg.tools t.name = none) :
    ((reg.register_server G).unregister_server G.name).get_available_tools
      = reg.get_available_tools := by
  unfold McpRegistry.get_available_tools
  rw [unregister_register_tools reg G hfresh]

/-- A tool whose name is fresh relative to `c3RegA`. -/
def c3FreshTool : McpTool :=
  { name := "u", description := "fresh tool", schema := Json.null, server := "B" }

/-- Group `B` carrying only the fresh tool `u`. -/
def c3GroupB : McpServer :=
  { name := "B", description := "group B", version := "1.0.0"
    tools := [c3FreshTool], status := McpServerStatus.active }

/-- Witness for the amended C3 at a concrete collision-free registration. -/
theorem c3_round_trip_fresh_witness :
    (∀ t ∈ c3GroupB.tools, alistLookup c3RegA.tools t.name = none) ∧
    ((c3RegA.register_server c3GroupB).unregister_server
        c3GroupB.name).get_available_tools
      = c3RegA.get_available_tools :=
  have hf : ∀ t ∈ c3GroupB.tools, alistLookup c3RegA.tools t.name = none := by
    intro t ht
    have ht2 : t = c3FreshTool := by
      have : t ∈ [c3FreshTool] := ht
      simpa using this
    rw [ht2]
    rfl
  ⟨hf, c3_round_trip_fresh c3RegA c3GroupB hf⟩

/-- C10: re-registering a group under an existing name replaces the group
entry but does not purge the old version's tools from the flat index: every
tool of the old group whose name is not among the new group's tool names is
still reachable by lookup and still appears in `get_available_tools`. -/
theorem c10_replacement_keeps_stale_tools (reg : McpRegistry)
    (G G2 : McpServer) (hname : G2.name = G.name)
    (hG : ∀ t ∈ G.tools, alistLookup reg.tools t.name = some t) :
    ∀ t ∈ G.tools, (∀ t2 ∈ G2.tools, t2.name ≠ t.name) →
      alistLookup (reg.register_server G2).tools t.name = some t ∧
      toTool t ∈ (reg.register_server G2).get_available_tools := by
  intro t ht hdisj
  have hne : ∀ t2 ∈ G2.tools, (t2.name == t.name) = false :=
    fun t2 h2 => beq_eq_false_iff_ne.mpr (hdisj t2 h2)
  have hlk : alistLookup (reg.register_server G2).tools t.name = some t := by
    unfold McpRegistry.register_server
    dsimp only
    rw [alistLookup_foldl_insert_ne G2.tools reg.tools t.name hne]
    exact hG t ht
  refine ⟨hlk, ?_⟩
  unfold alistLookup at hlk
  obtain ⟨p, hp, hp2⟩ : ∃ p,
      (reg.register_server G2).tools.find? (fun q => q.1 == t.name) = some p
        ∧ p.2 = t := by
    cases hfind : ((reg.register_server G2).tools.find?
        (fun q => q.1 == t.name)) with
    | none => rw [hfind] at hlk; simp at hlk
    | some p =>
      rw [hfind] at hlk
      exact ⟨p, rfl, by simpa using hlk⟩
  have hmem := List.mem_of_find?_eq_some hp
  unfold McpRegistry.get_available_tools
  rw [← hp2]
  exact List.mem_map_of_mem (fun q => toTool q.2) hmem

/-- The replacement tool `v` of the C10 witness. -/
def c10ToolV : McpTool :=
  { name := "v", description := "new tool", schema := Json.null, server := "A" }

/-- Replacement group for the C10 witness: same name as group `A`, carrying
only a tool named `v` (so `A`'s tool `t` is not among its names). -/
def c10GroupA2 : McpServer :=
  { name := "A", description := "group A v2", version := "2.0.0"
    tools := [c10ToolV], status := McpServerStatus.active }

/-- The original group `A` of the C10 witness. -/
def c10GroupA : McpServer :=
  { name := "A", description := "group A", version := "1.0.0"
    tools := [c3ToolA], status := McpServerStatus.active }

/-- Witness for C10 at a concrete replacement registration. -/
theorem c10_replacement_keeps_stale_tools_witness :
    (c10GroupA2.name = c10GroupA.name) ∧
    (∀ t ∈ c10GroupA.tools, alistLookup c3RegA.tools t.name = some t) ∧
    (alistLookup (c3RegA.register_server c10GroupA2).tools c3ToolA.name
        = some c3ToolA ∧
      toTool c3ToolA ∈ (c3RegA.register_server c10GroupA2).get_available_tools) :=
  have hG : ∀ t ∈ c10GroupA.tools, alistLookup c3RegA.tools t.name = some t := by
    intro t ht
    have ht2 : t = c3ToolA := by
      have : t ∈ [c3ToolA] := ht
      simpa using this
    rw [ht2]
    rfl
  have hdisj : ∀ t2 ∈ c10GroupA2.tools, t2.name ≠ c3ToolA.name := by
    intro t2 h2
    have h3 : t2 = c10ToolV := by
      have : t2 ∈ [c10ToolV] := h2
      simpa using this
    rw [h3]
    decide
  ⟨rfl, hG,
    c10_replacement_keeps_stale_tools c3RegA c10GroupA c10GroupA2 rfl hG
      c3ToolA (List.mem_cons_self _ _) hdisj⟩

/-- The C4 counterexample request: a single user message whose content has
byte length 40 and no tool calls. -/
def c4Request : ChatCompletionRequest :=
  { model := "gpt-4"
    messages := [{ role := "user"
                   content := some "aaaaaaaaaaaaaaaaaaaaaaaaaaaaaaaaaaaaaaaa"
                   tool_calls := none, tool_call_id := none, name := none }]
    temperature := none
    max_tokens := none
    stream := none
    tools := none
    tool_choice := none }

/-- C4 counterexample: a request with exactly one message of content length
40 and no tool calls for which the handler reports `prompt_tokens = 163`,
not 10 — the user message triggers retrieval, and the injected context
message is counted too. -/
theorem c4_counterexample :
    c4Request.messages.length = 1 ∧
    (c4Request.messages.map (fun m => (m.content.map byteLen, m.tool_calls)))
      = [(some 40, none)] ∧
    promptTokensOf (chat_completions_handler 0 McpRegistry.new c4Request)
      = some 163 ∧
    (163 : Nat) ≠ 10 :=
  ⟨rfl, by decide, by decide, by decide⟩


/-- C4 (amended): `prompt_tokens` is `calculate_tokens` of the message list
after context injection; for a request whose single message is NOT
user-role (so no retrieval context is injected), has content of byte length
40 and no tool calls, `prompt_tokens = 10`, and adding one tool call to
that message yields `prompt_tokens = 20` (exactly 10 more). -/
theorem c4_tokens_after_injection (now : Nat) (reg0 : McpRegistry)
    (req req2 : ChatCompletionRequest) (role c : String) (tc : ToolCall)
    (hrole : role ≠ "user") (hc : byteLen c = 40)
    (hm : req.messages = [{ role := role, content := some c, tool_calls := none,
                            tool_call_id := none, name := none }])
    (hm2 : req2.messages = [{ role := role, content := some c,
                              tool_calls := some [tc],
                              tool_call_id := none, name := none }]) :
    promptTokensOf (chat_completions_handler now reg0 req) = some 10 ∧
    promptTokensOf (chat_completions_handler now reg0 req2) = some 20 ∧
    (∀ (retrieve : String → Except String RagContext)
        (r : ChatCompletionRequest),
      promptTokensOf (chatCompletionsCore now retrieve reg0 r)
        = some (calculate_tokens (enhancedMessages retrieve r.messages))) := by
  have hbe : (role == "user") = false := beq_eq_false_iff_ne.mpr hrole
  have key : ∀ (tcs : Option (List ToolCall))
      (retrieve : String → Except String RagContext),
      enhancedMessages retrieve
        [{ role := role, content := some c, tool_calls := tcs,
           tool_call_id := none, name := none }]
        = [{ role := role, content := some c, tool_calls := tcs,
             tool_call_id := none, name := none }] := by
    intro tcs retrieve
    have hq : userQueryOf
        [({ role := role, content := some c, tool_calls := tcs,
            tool_call_id := none, name := none } : ChatMessage)] = "" := by
      unfold userQueryOf
      rw [filter_head_false (fun m : ChatMessage => m.role == "user") _ _ hbe,
          List.filter_nil]
      rfl
    unfold enhancedMessages
    dsimp only
    rw [hq, if_pos (show ("" == "") = true from rfl)]
  refine ⟨?_, ?_, fun retrieve r => promptTokens_eq now retrieve reg0 r⟩
  · unfold chat_completions_handler
    rw [promptTokens_eq, hm, key]
    simp [calculate_tokens, messageTokens, hc]
  · unfold chat_completions_handler
    rw [promptTokens_eq, hm2, key]
    simp [calculate_tokens, messageTokens, hc]

/-- Tool call used by the C4 witness. -/
def c4WitnessCall : ToolCall :=
  { id := "call_w", type := "function"
    function := { name := "read_file", arguments := "\x7b\x7d" } }

/-- System-role request of byte length 40 for the C4 witness. -/
def c4SysRequest : ChatCompletionRequest :=
  { model := "gpt-4"
    messages := [{ role := "system"
                   content := some "aaaaaaaaaaaaaaaaaaaaaaaaaaaaaaaaaaaaaaaa"
                   tool_calls := none, tool_call_id := none, name := none }]
    temperature := none
    max_tokens := none
    stream := none
    tools := none
    tool_choice := none }

/-- Same request with one tool call added to the message. -/
def c4SysRequest2 : ChatCompletionRequest :=
  { model := "gpt-4"
    messages := [{ role := "system"
                   content := some "aaaaaaaaaaaaaaaaaaaaaaaaaaaaaaaaaaaaaaaa"
                   tool_calls := some [c4WitnessCall]
                   tool_call_id := none, name := none }]
    temperature := none
    max_tokens := none
    stream := none
    tools := none
    tool_choice := none }

/-- Witness for the amended C4 at a concrete system-role request. -/
theorem c4_tokens_after_injection_witness :
    ("system" : String) ≠ "user" ∧
    byteLen "aaaaaaaaaaaaaaaaaaaaaaaaaaaaaaaaaaaaaaaa" = 40 ∧
    promptTokensOf (chat_completions_handler 7 McpRegistry.new c4SysRequest)
      = some 10 ∧
    promptTokensOf (chat_completions_handler 7 McpRegistry.new c4SysRequest2)
      = some 20 :=
  have h := c4_tokens_after_injection 7 McpRegistry.new c4SysRequest
    c4SysRequest2 "system" "aaaaaaaaaaaaaaaaaaaaaaaaaaaaaaaaaaaaaaaa"
    c4WitnessCall (by decide) (by decide) rfl rfl
  ⟨by decide, by decide, h.1, h.2.1⟩

/-- The failing input for C5: a query of 8000 bytes. -/
def c5LongQuery : String := String.mk (List.replicate 8000 (Char.ofNat 97))

theorem byteLen_c5LongQuery : byteLen c5LongQuery = 8000 := by
  unfold c5LongQuery byteLen
  rw [show (String.mk (List.replicate 8000 (Char.ofNat 97))).data
        = List.replicate 8000 (Char.ofNat 97) from rfl,
      List.map_replicate, List.sum_replicate]
  have h1 : Char.utf8Size (Char.ofNat 97) = 1 := by decide
  rw [h1, smul_eq_mul, mul_one]

theorem mock_total_tokens (q : String) (uid : Option String) (now : Nat) :
    (mockRagContext q uid now).total_tokens
      = (142 + byteLen q) / 4 + (127 + byteLen q) / 4 := by
  have hrep : (mockRagContext q uid now).total_tokens
      = byteLen ("This document contains relevant information about " ++ q
          ++ ". The ONE reference architecture uses React, Rust, and Tauri for cross-platform development.") / 4
        + (byteLen ("Implementation details related to " ++ q
          ++ ". The shared Rust handlers provide consistent API responses across web and desktop platforms.") / 4
          + 0) := rfl
  have h1 : byteLen ("This document contains relevant information about " ++ q
      ++ ". The ONE reference architecture uses React, Rust, and Tauri for cross-platform development.")
      = 142 + byteLen q := by
    rw [byteLen_append, byteLen_append]
    have hp : byteLen "This document contains relevant information about " = 50 := by
      decide
    have hs : byteLen ". The ONE reference architecture uses React, Rust, and Tauri for cross-platform development." = 92 := by
      decide
    rw [hp, hs]
    omega
  have h2 : byteLen ("Implementation details related to " ++ q
      ++ ". The shared Rust handlers provide consistent API responses across web and desktop platforms.")
      = 127 + byteLen q := by
    rw [byteLen_append, byteLen_append]
    have hp : byteLen "Implementation details related to " = 34 := by decide
    have hs : byteLen ". The shared Rust handlers provide consistent API responses across web and desktop platforms." = 93 := by
      decide
    rw [hp, hs]
    omega
  rw [hrep, h1, h2]
  omega

/-- C5: the claimed bounds of `retrieve_context` under the default
configuration, evaluated at the failing input: the call succeeds, the
document-count cap and the relevance threshold hold, but `total_tokens`
is 4066 ≥ `max_context_tokens` = 4000 — the mock performs no truncation,
contradicting its own TODO ("return top K documents under token limit"). -/
theorem c5_no_truncation_at_failing_input :
    RagConfig.default.max_documents = 5 ∧
    RagConfig.default.relevance_threshold = mkRat 7 10 ∧
    RagConfig.default.max_context_tokens = 4000 ∧
    (RagService.retrieve_context { config := RagConfig.default }
        c5LongQuery none 0).isOk = true ∧
    (mockRagContext c5LongQuery none 0).documents.length ≤ 5 ∧
    (∀ r ∈ (mockRagContext c5LongQuery none 0).relevance_scores,
      RagConfig.default.relevance_threshold ≤ r) ∧
    RagConfig.default.max_context_tokens
      ≤ (mockRagContext c5LongQuery none 0).total_tokens := by
  refine ⟨rfl, rfl, rfl, rfl, ?_, ?_, ?_⟩
  · rw [show (mockRagContext c5LongQuery none 0).documents.length = 2 from rfl]
    omega
  · intro r hr
    rw [show (mockRagContext c5LongQuery none 0).relevance_scores
          = [mkRat 85 100, mkRat 78 100] from rfl] at hr
    rcases List.mem_cons.mp hr with h1 | h1
    · rw [h1]; decide
    · rw [List.mem_singleton.mp h1]; decide
  · rw [mock_total_tokens, byteLen_c5LongQuery,
        show RagConfig.default.max_context_tokens = 4000 from rfl]
    norm_num

/-- C6: for every message list and every context with non-empty documents,
the injected context message sits at exactly the index the first
pre-existing user-role message occupied (the list is split there), and when
no user-role message exists the context message is appended at the end. -/
theorem c6_injection_position (msgs : List ChatMessage) (ctx : RagContext)
    (h : ctx.documents ≠ []) :
    enhance_messages_with_context msgs ctx
        = msgs.take (msgs.findIdx (fun m => m.role == "user"))
          ++ contextMessage ctx
            :: msgs.drop (msgs.findIdx (fun m => m.role == "user")) ∧
    (enhance_messages_with_context msgs ctx).get?
        (msgs.findIdx (fun m => m.role == "user")) = some (contextMessage ctx) ∧
    ((∀ m ∈ msgs, m.role ≠ "user") →
      enhance_messages_with_context msgs ctx = msgs ++ [contextMessage ctx]) := by
  have hne : ctx.documents.isEmpty = false := by
    cases hd : ctx.documents with
    | nil => exact absurd hd h
    | cons d ds => rfl
  have hmain : enhance_messages_with_context msgs ctx
      = msgs.take (msgs.findIdx (fun m => m.role == "user"))
        ++ contextMessage ctx
          :: msgs.drop (msgs.findIdx (fun m => m.role == "user")) := by
    unfold enhance_messages_with_context
    rw [hne]
    rfl
  refine ⟨hmain, ?_, ?_⟩
  · rw [hmain]
    have hle : (msgs.findIdx (fun m => m.role == "user")) ≤ msgs.length :=
      List.findIdx_le_length (fun m : ChatMessage => m.role == "user")
    have hlen : (msgs.take (msgs.findIdx (fun m => m.role == "user"))).length
        = msgs.findIdx (fun m => m.role == "user") := by
      rw [List.length_take]
      exact Nat.min_eq_left hle
    rw [List.get?_append_right (le_of_eq hlen), hlen, Nat.sub_self]
    rfl
  · intro hnone
    have hidx : msgs.findIdx (fun m => m.role == "user") = msgs.length :=
      List.findIdx_eq_length.mpr
        (fun x hx => beq_eq_false_iff_ne.mpr (hnone x hx))
    rw [hmain, hidx, List.take_length, List.drop_length]

/-- Concrete context for the C6 witness. -/
def c6Ctx : RagContext :=
  { documents := [{ id := "doc_w", title := "Doc", content := "body"
                    metadata := Json.null, embedding := none, created_at := 0 }]
    query := "q"
    relevance_scores := [mkRat 85 100]
    total_tokens := 1 }

/-- Concrete message list for the C6 witness: a system message followed by a
user message (first user index 1). -/
def c6Msgs : List ChatMessage :=
  [{ role := "system", content := some "sys", tool_calls := none
     tool_call_id := none, name := none },
   { role := "user", content := some "question", tool_calls := none
     tool_call_id := none, name := none }]

/-- Witness for C6 at a concrete list and context. -/
theorem c6_injection_position_witness :
    (c6Ctx.documents ≠ []) ∧
    (enhance_messages_with_context c6Msgs c6Ctx
        = c6Msgs.take (c6Msgs.findIdx (fun m => m.role == "user"))
          ++ contextMessage c6Ctx
            :: c6Msgs.drop (c6Msgs.findIdx (fun m => m.role == "user")) ∧
      (enhance_messages_with_context c6Msgs c6Ctx).get?
          (c6Msgs.findIdx (fun m => m.role == "user"))
        = some (contextMessage c6Ctx) ∧
      ((∀ m ∈ c6Msgs, m.role ≠ "user") →
        enhance_messages_with_context c6Msgs c6Ctx
          = c6Msgs ++ [contextMessage c6Ctx])) :=
  have hd : c6Ctx.documents ≠ [] := by
    rw [show c6Ctx.documents
          = [{ id := "doc_w", title := "Doc", content := "body"
               metadata := Json.null, embedding := none, created_at := 0 }]
        from rfl]
    exact List.cons_ne_nil _ _
  ⟨hd, c6_injection_position c6Msgs c6Ctx hd⟩

/-- C7: the handler is total on well-formed requests — the result is always
`ok` for every retrieval collaborator — and a retrieval failure only skips
the context augmentation: the response under a failing retrieval equals the
response under a retrieval returning no documents, for every error value
(so the error is never surfaced). -/
theorem c7_contained_retrieval_failure (now : Nat)
    (retrieve : String → Except String RagContext) (reg0 : McpRegistry)
    (req : ChatCompletionRequest) :
    (chatCompletionsCore now retrieve reg0 req).isOk = true ∧
    ∀ e : String,
      chatCompletionsCore now (fun _ => Except.error e) reg0 req
        = chatCompletionsCore now
            (fun _ => Except.ok { documents := [], query := ""
                                  relevance_scores := [], total_tokens := 0 })
            reg0 req := by
  constructor
  · unfold chatCompletionsCore
    dsimp only
    split <;> split <;> rfl
  · intro e
    unfold chatCompletionsCore
    rw [enhancedMessages_error, enhancedMessages_emptyCtx]

/-- Liveness endpoint that always answers with a non-success status (so it
never answers successfully), used as the C8 counterexample input. -/
def c8BadOutcomes : Nat → HealthOutcome := fun _ => HealthOutcome.response false

/-- C8 counterexample: against an endpoint that answers every attempt with a
non-success status — hence never successfully — the health-check loop
sleeps 0 ms, not at least 800 ms: the 200 ms pause happens only after
connection errors, not between answered attempts. -/
theorem c8_counterexample :
    (∀ a ∈ [1, 2, 3, 4, 5], c8BadOutcomes a ≠ HealthOutcome.response true) ∧
    ¬ 800 ≤ (verify_server_health c8BadOutcomes).2.2 := by
  constructor
  · decide
  · decide

/-- C8 (amended): when no attempt answers successfully, `start` makes
exactly 5 health-check attempts, sleeps 200 ms after each
connection-error attempt (so at least 800 ms — in fact 1000 ms — when
every attempt is a connection error, and none when attempts are answered
with non-success statuses), returns an error instead of hanging, and
leaves the manager not running. -/
theorem c8_health_check_exhaustion (outcomes : Nat → HealthOutcome)
    (srv : AIProxyServer) (hs : srv.is_running = false)
    (h : ∀ a ∈ [1, 2, 3, 4, 5], outcomes a ≠ HealthOutcome.response true) :
    (verify_server_health outcomes).1 = false ∧
    (verify_server_health outcomes).2.1 = 5 ∧
    (verify_server_health outcomes).2.2 = 200 * errCount outcomes ∧
    ((∀ a ∈ [1, 2, 3, 4, 5], outcomes a = HealthOutcome.connErr) →
      800 ≤ (verify_server_health outcomes).2.2) ∧
    (srv.start outcomes).1 = Except.error "Failed to start AI Proxy server" ∧
    ((srv.start outcomes).2.1).is_running = false := by
  have hv : verify_server_health outcomes
      = (false, 5, 200 * errCount outcomes) := by
    unfold verify_server_health
    rw [runHealthChecks_no_success outcomes [1, 2, 3, 4, 5] 0 0 h]
    unfold errCount
    norm_num
  have hstart : srv.start outcomes
      = (Except.error "Failed to start AI Proxy server", srv,
         500 + (verify_server_health outcomes).2.2) := by
    unfold AIProxyServer.start
    rw [hv]
    rfl
  refine ⟨by rw [hv], by rw [hv], by rw [hv], fun hall => ?_,
    by rw [hstart], by rw [hstart]; exact hs⟩
  have hcount : errCount outcomes = 5 := by
    unfold errCount
    rw [List.filter_eq_self.mpr]
    · rfl
    · intro a ha
      rw [hall a ha]
      rfl
  rw [hv, hcount]
  norm_num

/-- All-connection-error outcomes for the C8 witness. -/
def c8ErrOutcomes : Nat → HealthOutcome := fun _ => HealthOutcome.connErr

/-- Witness for the amended C8 with a connection-refused endpoint. -/
theorem c8_health_check_exhaustion_witness :
    (AIProxyServer.new.is_running = false) ∧
    (∀ a ∈ [1, 2, 3, 4, 5], c8ErrOutcomes a ≠ HealthOutcome.response true) ∧
    ((verify_server_health c8ErrOutcomes).1 = false ∧
      (verify_server_health c8ErrOutcomes).2.1 = 5 ∧
      (verify_server_health c8ErrOutcomes).2.2 = 200 * errCount c8ErrOutcomes ∧
      ((∀ a ∈ [1, 2, 3, 4, 5], c8ErrOutcomes a = HealthOutcome.connErr) →
        800 ≤ (verify_server_health c8ErrOutcomes).2.2) ∧
      (AIProxyServer.new.start c8ErrOutcomes).1
        = Except.error "Failed to start AI Proxy server" ∧
      ((AIProxyServer.new.start c8ErrOutcomes).2.1).is_running = false) :=
  ⟨rfl, by decide,
    c8_health_check_exhaustion c8ErrOutcomes AIProxyServer.new rfl (by decide)⟩

/-- C9: the prompt-token count is computed over the message list after
context injection — when the user query is non-empty the injected context
message contributes `byteLen content / 4` tokens — so the same request
answered with the mock retrieval and with a failing retrieval reports
different `prompt_tokens`. -/
theorem c9_prompt_counts_injected_context (now : Nat) (reg0 : McpRegistry)
    (req : ChatCompletionRequest) (h : userQueryOf req.messages ≠ "") :
    promptTokensOf (chat_completions_handler now reg0 req)
      = some (calculate_tokens req.messages
          + byteLen (format_context_for_llm
              (mockRagContext (userQueryOf req.messages) none now)) / 4) ∧
    promptTokensOf (chatCompletionsCore now
        (fun _ => Except.error "RetrievalUnavailable") reg0 req)
      = some (calculate_tokens req.messages) ∧
    promptTokensOf (chat_completions_handler now reg0 req)
      ≠ promptTokensOf (chatCompletionsCore now
          (fun _ => Except.error "RetrievalUnavailable") reg0 req) := by
  have hbe : (userQueryOf req.messages == "") = false :=
    beq_eq_false_iff_ne.mpr h
  have henh : enhancedMessages
      (fun q => RagService.retrieve_context { config := RagConfig.default } q none now)
      req.messages
      = req.messages.take (req.messages.findIdx (fun m => m.role == "user"))
        ++ contextMessage (mockRagContext (userQueryOf req.messages) none now)
          :: req.messages.drop
              (req.messages.findIdx (fun m => m.role == "user")) := by
    unfold enhancedMessages
    dsimp only [RagService.retrieve_context]
    rw [hbe, if_neg Bool.false_ne_true]
    unfold enhance_messages_with_context
    rw [show (mockRagContext (userQueryOf req.messages) none now).documents.isEmpty
          = false from rfl,
        if_neg Bool.false_ne_true]
  have hmt : messageTokens
      (contextMessage (mockRagContext (userQueryOf req.messages) none now))
      = byteLen (format_context_for_llm
          (mockRagContext (userQueryOf req.messages) none now)) / 4 := by
    unfold messageTokens contextMessage
    dsimp only
    omega
  have hpart1 : promptTokensOf (chat_completions_handler now reg0 req)
      = some (calculate_tokens req.messages
          + byteLen (format_context_for_llm
              (mockRagContext (userQueryOf req.messages) none now)) / 4) := by
    unfold chat_completions_handler
    rw [promptTokens_eq, henh, calculate_tokens_insert, hmt]
  have hpart2 : promptTokensOf (chatCompletionsCore now
      (fun _ => Except.error "RetrievalUnavailable") reg0 req)
      = some (calculate_tokens req.messages) := by
    rw [promptTokens_eq, enhancedMessages_error]
  refine ⟨hpart1, hpart2, ?_⟩
  rw [hpart1, hpart2]
  have h4 : 4 ≤ byteLen (format_context_for_llm
      (mockRagContext (userQueryOf req.messages) none now)) := by
    unfold format_context_for_llm
    rw [byteLen_append, byteLen_append, byteLen_append, byteLen_append,
        byteLen_append]
    have h30 : byteLen "# Relevant Context Documents\n\n" = 30 := by decide
    omega
  have hk : 1 ≤ byteLen (format_context_for_llm
      (mockRagContext (userQueryOf req.messages) none now)) / 4 :=
    (Nat.one_le_div_iff (by omega)).mpr h4
  intro hcontra
  rw [Option.some.injEq] at hcontra
  omega

/-- Concrete request with a non-empty user query for the C9 witness. -/
def c9Request : ChatCompletionRequest :=
  { model := "gpt-4"
    messages := [{ role := "user", content := some "hi"
                   tool_calls := none, tool_call_id := none, name := none }]
    temperature := none
    max_tokens := none
    stream := none
    tools := none
    tool_choice := none }

/-- Witness for C9 at a concrete request. -/
theorem c9_prompt_counts_injected_context_witness :
    (userQueryOf c9Request.messages ≠ "") ∧
    (promptTokensOf (chat_completions_handler 0 McpRegistry.new c9Request)
        = some (calculate_tokens c9Request.messages
            + byteLen (format_context_for_llm
                (mockRagContext (userQueryOf c9Request.messages) none 0)) / 4) ∧
      promptTokensOf (chatCompletionsCore 0
          (fun _ => Except.error "RetrievalUnavailable") McpRegistry.new c9Request)
        = some (calculate_tokens c9Request.messages) ∧
      promptTokensOf (chat_completions_handler 0 McpRegistry.new c9Request)
        ≠ promptTokensOf (chatCompletionsCore 0
            (fun _ => Except.error "RetrievalUnavailable") McpRegistry.new
            c9Request)) :=
  ⟨by decide,
    c9_prompt_counts_injected_context 0 McpRegistry.new c9Request (by decide)⟩
